import Mathlib

/-!
Shallow embedding of the saito-rust core: the transaction record
(src/transaction.rs) and the unspent-output ledger (src/shashmap.rs).
Machine integers are modelled as Nat/Int with explicit wrap-around where the
Rust code casts; byte vectors are lists of Nat; the Rust HashMap is modelled
extensionally as its lookup function.
-/

/-- Length of the SaitoSignature byte array: the source declares
`pub fn get_signature(&self) -> [u8; 64]` and initialises the field with
`[0; 64]`, so the buffer holds exactly 64 bytes. -/
def SaitoSignatureLen : Nat := 64

/-- The SaitoSignature type from the source: a fixed 64-byte array,
modelled as a list of bytes whose length is exactly SaitoSignatureLen. -/
def SaitoSignature := { l : List Nat // l.length = SaitoSignatureLen }

instance : DecidableEq SaitoSignature := fun a b =>
  decidable_of_iff (a.val = b.val) Subtype.ext_iff.symm

/-- The all-zero 64-byte signature, the `[0; 64]` default of the source. -/
def zeroSignature : SaitoSignature := ⟨List.replicate 64 0, by simp [SaitoSignatureLen]⟩

/-- Modelled from the spec: the Slip type (crate::slip) is not under src/.
The spec treats it as an opaque output reference exposing a canonical byte
encoding, an embedded public key, structural equality usable as a map key,
and an independent validity predicate; we model it as a record of exactly
those observables. -/
structure Slip where
  publickey : List Nat
  body : List Nat
  is_valid : Bool
deriving DecidableEq

/-- Modelled from the spec: the embedded public key accessor of Slip. -/
def Slip.get_publickey (s : Slip) : List Nat := s.publickey

/-- Modelled from the spec: the canonical byte encoding of Slip. -/
def Slip.serialize_for_signature (s : Slip) : List Nat := s.body

/-- Modelled from the spec: the independent validity predicate of Slip. -/
def Slip.validate (s : Slip) : Bool := s.is_valid

/-- Modelled from the spec: the crypto primitives of crate::crypto are not
under src/; the spec consumes them as black boxes, so the development is
parametrised over a record holding a hashing function, a signing function
and a verification function. -/
structure Crypto where
  hash : List Nat → List Nat
  sign : List Nat → List Nat → SaitoSignature
  verify : List Nat → SaitoSignature → List Nat → Bool

/-- TransactionType from src/transaction.rs: a closed enumeration with the
single variant Normal. -/
inductive TransactionType where
  | Normal
deriving DecidableEq

/-- The Rust expression `transaction_type as u32`: the ordinal value of the
enumeration variant. -/
def TransactionType.ordinal : TransactionType → Nat
  | TransactionType.Normal => 0

/-- TransactionCore from src/transaction.rs. -/
structure TransactionCore where
  timestamp : Nat
  inputs : List Slip
  outputs : List Slip
  message : List Nat
  transaction_type : TransactionType
  signature : SaitoSignature
deriving DecidableEq

/-- Transaction from src/transaction.rs: the core plus the cached
hash_for_signature field (a 32-byte SaitoHash, modelled as a byte list). -/
structure Transaction where
  core : TransactionCore
  hash_for_signature : List Nat
deriving DecidableEq

/-- Transaction::get_inputs. -/
def Transaction.get_inputs (tx : Transaction) : List Slip := tx.core.inputs

/-- Transaction::get_outputs. -/
def Transaction.get_outputs (tx : Transaction) : List Slip := tx.core.outputs

/-- Transaction::get_signature, returning the 64-byte array. -/
def Transaction.get_signature (tx : Transaction) : SaitoSignature := tx.core.signature

/-- Transaction::set_signature. -/
def Transaction.set_signature (tx : Transaction) (sig : SaitoSignature) : Transaction :=
  { tx with core := { tx.core with signature := sig } }

/-- Transaction::set_hash_for_signature. -/
def Transaction.set_hash_for_signature (tx : Transaction) (h : List Nat) : Transaction :=
  { tx with hash_for_signature := h }

/-- Big-endian byte decomposition of a u64, the Rust `u64::to_be_bytes`. -/
def u64_be_bytes (n : Nat) : List Nat :=
  [n / 2 ^ 56 % 256, n / 2 ^ 48 % 256, n / 2 ^ 40 % 256, n / 2 ^ 32 % 256,
   n / 2 ^ 24 % 256, n / 2 ^ 16 % 256, n / 2 ^ 8 % 256, n % 256]

/-- Big-endian byte decomposition of a u32, the Rust `u32::to_be_bytes`. -/
def u32_be_bytes (n : Nat) : List Nat :=
  [n / 2 ^ 24 % 256, n / 2 ^ 16 % 256, n / 2 ^ 8 % 256, n % 256]

/-- Transaction::serialize_for_signature from src/transaction.rs: starting
from an empty vector, extend with the big-endian timestamp, then loop over
inputs extending with each encoding, then over outputs, then extend with the
big-endian u32 type ordinal, then with the message bytes. -/
def Transaction.serialize_for_signature (tx : Transaction) : List Nat :=
  let vbytes : List Nat := []
  let vbytes := vbytes ++ u64_be_bytes tx.core.timestamp
  let vbytes := tx.core.inputs.foldl (fun v input => v ++ input.serialize_for_signature) vbytes
  let vbytes := tx.core.outputs.foldl (fun v output => v ++ output.serialize_for_signature) vbytes
  let vbytes := vbytes ++ u32_be_bytes tx.core.transaction_type.ordinal
  let vbytes := vbytes ++ tx.core.message
  vbytes

/-- Transaction::sign from src/transaction.rs: hash the signature encoding,
store the signature over that hash, then store the hash. -/
def Transaction.sign (c : Crypto) (tx : Transaction) (privatekey : List Nat) : Transaction :=
  let hash_for_signature := c.hash tx.serialize_for_signature
  let tx1 := tx.set_signature (c.sign hash_for_signature privatekey)
  tx1.set_hash_for_signature hash_for_signature

/-- The input-validation loop of Transaction::validate: return false at the
first input whose own validity check fails, true after the loop. -/
def validate_inputs : List Slip → Bool
  | [] => true
  | input :: rest => if input.validate then validate_inputs rest else false

/-- Transaction::validate from src/transaction.rs: recompute the hash of the
signature encoding, pick the public key of the first input when inputs is
non-empty (the `[0; 33]` placeholder otherwise), return false when the
signature fails to verify, otherwise run the input-validation loop. -/
def Transaction.validate (c : Crypto) (tx : Transaction) : Bool :=
  let msg := c.hash tx.serialize_for_signature
  let sig := tx.get_signature
  let publickey : List Nat :=
    match tx.core.inputs with
    | [] => List.replicate 33 0
    | input0 :: _ => input0.get_publickey
  if ¬ (c.verify msg sig publickey) then false
  else validate_inputs tx.core.inputs

/-- The Rust cast `id as i64` applied to a u64 value: wrap into the signed
64-bit range. -/
def i64_of_u64 (n : Nat) : Int :=
  if n % 2 ^ 64 < 2 ^ 63 then ((n % 2 ^ 64 : Nat) : Int)
  else ((n % 2 ^ 64 : Nat) : Int) - 2 ^ 64

/-- The Shashmap of src/shashmap.rs: its HashMap from Slip to i64 is
modelled extensionally as the lookup function. -/
def Shashmap := Slip → Option Int

/-- HashMap::insert on the extensional model: overwrite the key. -/
def hmInsert (m : Shashmap) (k : Slip) (v : Int) : Shashmap :=
  fun s => if s = k then some v else m s

/-- HashMap::remove on the extensional model: delete the key. -/
def hmRemove (m : Shashmap) (k : Slip) : Shashmap :=
  fun s => if s = k then none else m s

/-- Shashmap::new. -/
def Shashmap.new : Shashmap := fun _ => none

/-- Shashmap::insert: store the block id (a u64 cast to i64) under the slip. -/
def Shashmap.insert (m : Shashmap) (slip : Slip) (id : Nat) : Shashmap :=
  hmInsert m slip (i64_of_u64 id)

/-- Shashmap::insert_new_transaction: map every output of the transaction
to the sentinel -1. -/
def Shashmap.insert_new_transaction (m : Shashmap) (tx : Transaction) : Shashmap :=
  tx.get_outputs.foldl (fun acc output => hmInsert acc output (-1)) m

/-- Shashmap::spend_transaction: map every input of the transaction to the
block id (a u64 cast to i64). -/
def Shashmap.spend_transaction (m : Shashmap) (tx : Transaction) (block_id : Nat) : Shashmap :=
  tx.get_inputs.foldl (fun acc input => hmInsert acc input (i64_of_u64 block_id)) m

/-- Shashmap::unspend_transaction: first map every input back to -1, then
remove every output entirely. -/
def Shashmap.unspend_transaction (m : Shashmap) (tx : Transaction) : Shashmap :=
  let m1 := tx.get_inputs.foldl (fun acc input => hmInsert acc input (-1)) m
  tx.get_outputs.foldl (fun acc outer => hmRemove acc outer) m1

/-- Shashmap::spend_slip: store the block id under the single slip. -/
def Shashmap.spend_slip (m : Shashmap) (slip : Slip) (bid : Nat) : Shashmap :=
  hmInsert m slip (i64_of_u64 bid)

/-- Shashmap::unspend_slip: store -1 under the single slip. -/
def Shashmap.unspend_slip (m : Shashmap) (slip : Slip) : Shashmap :=
  hmInsert m slip (-1)

/-- Shashmap::slip_block_id: look the slip up in the map. -/
def Shashmap.slip_block_id (m : Shashmap) (slip : Slip) : Option Int := m slip

/-! Helper lemmas shared by several claims. -/

/-- Appending via a left fold is appending the flattened image. -/
theorem foldl_append_flatten (f : Slip → List Nat) (l : List Slip) (acc : List Nat) :
    l.foldl (fun v s => v ++ f s) acc = acc ++ (l.map f).flatten := by
  induction l generalizing acc with
  | nil => simp
  | cons x xs ih => simp [List.foldl, ih]

/-- The serialization reads only the timestamp, inputs, outputs, type and
message of the core. -/
theorem serialize_eq_of_parts (t1 t2 : Transaction)
    (hts : t1.core.timestamp = t2.core.timestamp)
    (hin : t1.core.inputs = t2.core.inputs)
    (hout : t1.core.outputs = t2.core.outputs)
    (hmsg : t1.core.message = t2.core.message)
    (hty : t1.core.transaction_type = t2.core.transaction_type) :
    t1.serialize_for_signature = t2.serialize_for_signature := by
  simp [Transaction.serialize_for_signature, hts, hin, hout, hmsg, hty]

/-- The input-validation loop agrees with the all-inputs-valid predicate. -/
theorem validate_inputs_eq_all (l : List Slip) :
    validate_inputs l = true ↔ ∀ i ∈ l, i.validate = true := by
  induction l with
  | nil => simp [validate_inputs]
  | cons x xs ih =>
    by_cases hx : x.validate = true
    · simp [validate_inputs, hx, ih]
    · simp [validate_inputs, hx]

/-- Looking up after a fold of constant-value insertions: keys in the list
map to the constant, others are untouched. -/
theorem foldl_hmInsert_lookup (l : List Slip) (m : Shashmap) (v : Int) (k : Slip) :
    (l.foldl (fun acc s => hmInsert acc s v) m) k = if k ∈ l then some v else m k := by
  induction l generalizing m with
  | nil => simp
  | cons x xs ih =>
    simp only [List.foldl]
    rw [ih]
    by_cases hk : k ∈ xs
    · simp [hk]
    · by_cases hx : k = x
      · subst hx
        simp [hk, hmInsert]
      · simp [hk, hx, hmInsert]

/-- Looking up after a fold of removals: keys in the list map to none,
others are untouched. -/
theorem foldl_hmRemove_lookup (l : List Slip) (m : Shashmap) (k : Slip) :
    (l.foldl (fun acc s => hmRemove acc s) m) k = if k ∈ l then none else m k := by
  induction l generalizing m with
  | nil => simp
  | cons x xs ih =>
    simp only [List.foldl]
    rw [ih]
    by_cases hk : k ∈ xs
    · simp [hk]
    · by_cases hx : k = x
      · subst hx
        simp [hk, hmRemove]
      · simp [hk, hx, hmRemove]

/-- The wrap-around cast is the identity below 2 to the 63. -/
theorem i64_of_u64_small (n : Nat) (h : n < 2 ^ 63) : i64_of_u64 n = (n : Int) := by
  have h64 : n < 2 ^ 64 := lt_of_lt_of_le h (by norm_num)
  unfold i64_of_u64
  rw [Nat.mod_eq_of_lt h64, if_pos h]

/-- C1: Transaction::serialize_for_signature returns exactly the
concatenation, in order, of the 8-byte big-endian timestamp, each input
encoding in list order, each output encoding in list order, the 4-byte
big-endian type ordinal, and the raw message bytes with no framing; the
signature field appears nowhere in the encoding, since replacing it leaves
the encoding unchanged. -/
theorem c1_serialize_for_signature_layout (tx : Transaction) :
    tx.serialize_for_signature =
      u64_be_bytes tx.core.timestamp
        ++ (tx.core.inputs.map Slip.serialize_for_signature).flatten
        ++ (tx.core.outputs.map Slip.serialize_for_signature).flatten
        ++ u32_be_bytes tx.core.transaction_type.ordinal
        ++ tx.core.message
    ∧ ∀ sig : SaitoSignature,
        (tx.set_signature sig).serialize_for_signature = tx.serialize_for_signature := by
  constructor
  · simp [Transaction.serialize_for_signature, foldl_append_flatten, List.append_assoc]
  · intro sig
    apply serialize_eq_of_parts <;> simp [Transaction.set_signature]

/-- C2: Transaction::validate recomputes the hash of the signature encoding,
verifies the stored signature against it under the public key of the first
input (the all-zero placeholder when inputs is empty), and returns true
exactly when that verification and every input validity check succeed. -/
theorem c2_validate_spec (c : Crypto) (tx : Transaction) :
    tx.validate c = true ↔
      (c.verify (c.hash tx.serialize_for_signature) tx.get_signature
          (match tx.core.inputs with
           | [] => List.replicate 33 0
           | input0 :: _ => input0.get_publickey) = true
        ∧ ∀ i ∈ tx.core.inputs, i.validate = true) := by
  unfold Transaction.validate
  cases hv : c.verify (c.hash tx.serialize_for_signature) tx.get_signature
      (match tx.core.inputs with
       | [] => List.replicate 33 0
       | input0 :: _ => input0.get_publickey) with
  | false =>
    simp only [hv]
    simp
  | true =>
    simp only [hv]
    simp [validate_inputs_eq_all]

/-- C8: Transaction::validate never reads the cached hash_for_signature
field: two transactions with equal cores validate identically under any
crypto primitives. -/
theorem c8_validate_ignores_cached_hash (c : Crypto) (t1 t2 : Transaction)
    (h : t1.core = t2.core) : t1.validate c = t2.validate c := by
  obtain ⟨c1, h1⟩ := t1
  obtain ⟨c2, h2⟩ := t2
  simp only at h
  subst h
  unfold Transaction.validate
  rw [serialize_eq_of_parts ⟨c1, h1⟩ ⟨c1, h2⟩ rfl rfl rfl rfl rfl]
  rfl

/-- C9: Transaction::sign updates only the cached hash field (to the hash
of the signature encoding) and the signature field (to the signature of
that hash); timestamp, inputs, outputs, message and type are unchanged. -/
theorem c9_sign_frame (c : Crypto) (tx : Transaction) (priv : List Nat) :
    (Transaction.sign c tx priv).core.timestamp = tx.core.timestamp
    ∧ (Transaction.sign c tx priv).core.inputs = tx.core.inputs
    ∧ (Transaction.sign c tx priv).core.outputs = tx.core.outputs
    ∧ (Transaction.sign c tx priv).core.message = tx.core.message
    ∧ (Transaction.sign c tx priv).core.transaction_type = tx.core.transaction_type
    ∧ (Transaction.sign c tx priv).hash_for_signature = c.hash tx.serialize_for_signature
    ∧ (Transaction.sign c tx priv).core.signature =
        c.sign (c.hash tx.serialize_for_signature) priv := by
  exact ⟨rfl, rfl, rfl, rfl, rfl, rfl, rfl⟩

/-- C3: for a transaction with at least one input, when the consumed
signing and verification primitives agree on the key pair, the first input
embeds the verifying public key, and every input passes its own validity
check, Transaction::sign followed by Transaction::validate returns true. -/
theorem c3_sign_then_validate (c : Crypto) (tx : Transaction)
    (priv pub : List Nat) (s0 : Slip) (rest : List Slip)
    (hin : tx.core.inputs = s0 :: rest)
    (hpk : s0.get_publickey = pub)
    (hkey : ∀ h : List Nat, c.verify h (c.sign h priv) pub = true)
    (hvalid : ∀ i ∈ tx.core.inputs, i.validate = true) :
    (Transaction.sign c tx priv).validate c = true := by
  have hser : (Transaction.sign c tx priv).serialize_for_signature
      = tx.serialize_for_signature :=
    serialize_eq_of_parts _ _ rfl rfl rfl rfl rfl
  have hins : (Transaction.sign c tx priv).core.inputs = s0 :: rest := hin
  have hsig : (Transaction.sign c tx priv).get_signature
      = c.sign (c.hash tx.serialize_for_signature) priv := rfl
  have hall : validate_inputs (s0 :: rest) = true :=
    (validate_inputs_eq_all _).mpr (by rw [← hin]; exact hvalid)
  unfold Transaction.validate
  simp [hser, hins, hsig, hpk, hkey, hall]

/-- Padding of a byte list to the fixed 64-byte signature size, used to
build concrete crypto instances. -/
def pad64 (l : List Nat) : SaitoSignature :=
  ⟨l.take 64 ++ List.replicate (64 - (l.take 64).length) 0, by
    simp [SaitoSignatureLen]⟩

/-- A concrete crypto instance for the round-trip claim: hashing truncates,
signing pads the key onto the digest, verification recomputes the expected
signature from the public key and compares. -/
def demoCryptoC3 : Crypto where
  hash l := l.take 32
  sign h k := pad64 (k ++ h)
  verify h s p := decide (s = pad64 (p ++ h))

/-- A concrete valid slip embedding public key [7]. -/
def slipC3 : Slip := { publickey := [7], body := [1], is_valid := true }

/-- A concrete one-input transaction for the round-trip claim. -/
def txC3 : Transaction :=
  { core := { timestamp := 1000, inputs := [slipC3], outputs := [],
              message := [104, 105], transaction_type := TransactionType.Normal,
              signature := zeroSignature },
    hash_for_signature := List.replicate 32 0 }

/-- Witness for c3: the concrete one-input transaction signed with the
matching private key validates. -/
theorem c3_sign_then_validate_witness :
    (Transaction.sign demoCryptoC3 txC3 [7]).validate demoCryptoC3 = true :=
  c3_sign_then_validate demoCryptoC3 txC3 [7] [7] slipC3 [] rfl rfl
    (fun h => by simp [demoCryptoC3]) (by decide)

/-- C7 counterexample: the signature buffer of the source holds exactly 64
bytes, so no value of the signature type has the 72-byte length of the
longer encoding. -/
theorem c7_counterexample :
    SaitoSignatureLen < 72 ∧ ¬ ∃ s : SaitoSignature, s.val.length = 72 := by
  refine ⟨by decide, ?_⟩
  rintro ⟨s, hs⟩
  have h2 := s.property
  rw [hs] at h2
  exact absurd h2 (by decide)

/-- C7 amended: the signature field is a fixed-capacity buffer of exactly
64 bytes, the size of the compact encoding; the longer encodings of up to
72 bytes do not fit. -/
theorem c7_signature_buffer_64 :
    SaitoSignatureLen = 64
    ∧ (∀ tx : Transaction, tx.get_signature.val.length = 64)
    ∧ SaitoSignatureLen < 72 := by
  refine ⟨rfl, ?_, by decide⟩
  intro tx
  exact tx.core.signature.property

/-- A concrete valid slip appearing both as input and output of a
degenerate transaction. -/
def slipC4 : Slip := { publickey := [1], body := [2], is_valid := true }

/-- A degenerate transaction whose single slip is both an input and an
output. -/
def txC4 : Transaction :=
  { core := { timestamp := 0, inputs := [slipC4], outputs := [slipC4],
              message := [], transaction_type := TransactionType.Normal,
              signature := zeroSignature },
    hash_for_signature := [] }

/-- C4 counterexample: when a slip is both an input and an output of the
transaction, rollback after register and spend removes its entry entirely,
so the input looks up as absent rather than as -1, refuting the claim as
stated. -/
theorem c4_counterexample :
    ¬ (∀ i ∈ txC4.get_inputs,
        (((Shashmap.new.insert_new_transaction txC4).spend_transaction txC4 5).unspend_transaction
            txC4).slip_block_id i = some (-1)) := by
  decide

/-- C4 amended: provided no slip of the transaction is both an input and an
output, rollback after register-outputs and spend-inputs leaves every input
at -1 and every output absent. -/
theorem c4_apply_then_rollback (m : Shashmap) (tx : Transaction) (bid : Nat)
    (hdisj : ∀ s ∈ tx.get_inputs, s ∉ tx.get_outputs) :
    (∀ i ∈ tx.get_inputs,
        (((m.insert_new_transaction tx).spend_transaction tx bid).unspend_transaction
            tx).slip_block_id i = some (-1))
    ∧ (∀ o ∈ tx.get_outputs,
        (((m.insert_new_transaction tx).spend_transaction tx bid).unspend_transaction
            tx).slip_block_id o = none) := by
  constructor
  · intro i hi
    have hnotout := hdisj i hi
    simp [Shashmap.slip_block_id, Shashmap.unspend_transaction,
      Shashmap.insert_new_transaction, Shashmap.spend_transaction,
      foldl_hmInsert_lookup, foldl_hmRemove_lookup, hi, hnotout]
  · intro o ho
    simp [Shashmap.slip_block_id, Shashmap.unspend_transaction,
      Shashmap.insert_new_transaction, Shashmap.spend_transaction,
      foldl_hmRemove_lookup, ho]

/-- A concrete valid slip used as the input of the disjoint witness
transaction. -/
def slipC4in : Slip := { publickey := [1], body := [3], is_valid := true }

/-- A concrete valid slip used as the output of the disjoint witness
transaction. -/
def slipC4out : Slip := { publickey := [2], body := [4], is_valid := true }

/-- A concrete transaction with disjoint input and output slips. -/
def txC4w : Transaction :=
  { core := { timestamp := 0, inputs := [slipC4in], outputs := [slipC4out],
              message := [], transaction_type := TransactionType.Normal,
              signature := zeroSignature },
    hash_for_signature := [] }

/-- Witness for c4_apply_then_rollback at a concrete disjoint transaction. -/
theorem c4_apply_then_rollback_witness :
    (((Shashmap.new.insert_new_transaction txC4w).spend_transaction txC4w 7).unspend_transaction
        txC4w).slip_block_id slipC4in = some (-1)
    ∧ (((Shashmap.new.insert_new_transaction txC4w).spend_transaction txC4w 7).unspend_transaction
        txC4w).slip_block_id slipC4out = none :=
  ⟨(c4_apply_then_rollback Shashmap.new txC4w 7 (by decide)).1 slipC4in (by decide),
   (c4_apply_then_rollback Shashmap.new txC4w 7 (by decide)).2 slipC4out (by decide)⟩

/-- A concrete valid slip used as the input of the large-block-id
transaction. -/
def slipC5 : Slip := { publickey := [1], body := [5], is_valid := true }

/-- A concrete one-input transaction for the large-block-id refutation. -/
def txC5 : Transaction :=
  { core := { timestamp := 0, inputs := [slipC5], outputs := [],
              message := [], transaction_type := TransactionType.Normal,
              signature := zeroSignature },
    hash_for_signature := [] }

/-- C5 counterexample: spending with the u64 block id 2 to the 63 stores
the wrapped negative i64 value, not the block id, refuting the claim as
stated over every passable block identifier. -/
theorem c5_counterexample :
    ¬ (∀ i ∈ txC5.get_inputs,
        (Shashmap.new.spend_transaction txC5 (2 ^ 63)).slip_block_id i
          = some ((2 ^ 63 : Nat) : Int)) := by
  decide

/-- C5 amended: for block identifiers below 2 to the 63,
insert_new_transaction maps every output to -1 and spend_transaction maps
every input to the block id, in both cases creating entries for absent keys
and leaving every key not in the respective list unchanged. -/
theorem c5_register_and_spend (m : Shashmap) (tx : Transaction) (bid : Nat)
    (hbid : bid < 2 ^ 63) :
    (∀ o ∈ tx.get_outputs, (m.insert_new_transaction tx).slip_block_id o = some (-1))
    ∧ (∀ s, s ∉ tx.get_outputs →
        (m.insert_new_transaction tx).slip_block_id s = m.slip_block_id s)
    ∧ (∀ i ∈ tx.get_inputs, (m.spend_transaction tx bid).slip_block_id i = some (bid : Int))
    ∧ (∀ s, s ∉ tx.get_inputs →
        (m.spend_transaction tx bid).slip_block_id s = m.slip_block_id s) := by
  refine ⟨?_, ?_, ?_, ?_⟩ <;> intro s hs <;>
    simp [Shashmap.slip_block_id, Shashmap.insert_new_transaction,
      Shashmap.spend_transaction, foldl_hmInsert_lookup, hs,
      i64_of_u64_small bid hbid]

/-- A concrete valid slip for the register-and-spend witness. -/
def slipC5w : Slip := { publickey := [2], body := [6], is_valid := true }

/-- A concrete transaction with one input and one output for the
register-and-spend witness. -/
def txC5w : Transaction :=
  { core := { timestamp := 0, inputs := [slipC5w], outputs := [slipC5],
              message := [], transaction_type := TransactionType.Normal,
              signature := zeroSignature },
    hash_for_signature := [] }

/-- Witness for c5_register_and_spend at block id 7. -/
theorem c5_register_and_spend_witness :
    (Shashmap.new.insert_new_transaction txC5w).slip_block_id slipC5 = some (-1)
    ∧ (Shashmap.new.spend_transaction txC5w 7).slip_block_id slipC5w = some (7 : Int) :=
  ⟨(c5_register_and_spend Shashmap.new txC5w 7 (by decide)).1 slipC5 (by decide),
   (c5_register_and_spend Shashmap.new txC5w 7 (by decide)).2.2.1 slipC5w (by decide)⟩

/-- A concrete valid slip for the sentinel-collision claim. -/
def slipC6 : Slip := { publickey := [3], body := [7], is_valid := true }

/-- C6 counterexample: inserting with the u64 block identifier 2^64 - 1,
which the insert and spend operations accept, stores the sentinel -1
itself, so a passable block identifier does produce a lookup result of
-1. -/
theorem c6_counterexample :
    (Shashmap.new.insert slipC6 (2 ^ 64 - 1)).slip_block_id slipC6 = some (-1) := by
  decide

/-- C6 amended: for block identifiers below 2 to the 63, the value stored
by insert and by spend_transaction is non-negative and never the sentinel
-1. -/
theorem c6_no_sentinel_collision (m : Shashmap) (slip : Slip) (tx : Transaction)
    (id : Nat) (hid : id < 2 ^ 63) :
    (0 ≤ i64_of_u64 id ∧ i64_of_u64 id ≠ -1)
    ∧ (m.insert slip id).slip_block_id slip = some ((id : Nat) : Int)
    ∧ (∀ i ∈ tx.get_inputs,
        (m.spend_transaction tx id).slip_block_id i = some ((id : Nat) : Int)) := by
  refine ⟨⟨?_, ?_⟩, ?_, ?_⟩
  · rw [i64_of_u64_small id hid]
    omega
  · rw [i64_of_u64_small id hid]
    omega
  · simp [Shashmap.insert, Shashmap.slip_block_id, hmInsert, i64_of_u64_small id hid]
  · intro i hi
    simp [Shashmap.spend_transaction, Shashmap.slip_block_id,
      foldl_hmInsert_lookup, hi, i64_of_u64_small id hid]

/-- A concrete valid slip for the sentinel-collision witness. -/
def slipC6w : Slip := { publickey := [4], body := [8], is_valid := true }

/-- A concrete one-input transaction for the sentinel-collision witness. -/
def txC6w : Transaction :=
  { core := { timestamp := 0, inputs := [slipC6w], outputs := [],
              message := [], transaction_type := TransactionType.Normal,
              signature := zeroSignature },
    hash_for_signature := [] }

/-- Witness for c6_no_sentinel_collision at block id 9. -/
theorem c6_no_sentinel_collision_witness :
    (Shashmap.new.insert slipC6w 9).slip_block_id slipC6w = some (9 : Int)
    ∧ 0 ≤ i64_of_u64 9 :=
  ⟨(c6_no_sentinel_collision Shashmap.new slipC6w txC6w 9 (by decide)).2.1,
   (c6_no_sentinel_collision Shashmap.new slipC6w txC6w 9 (by decide)).1.1⟩

/-- A concrete valid slip appearing both as input and output of the
rollback refutation transaction. -/
def slipC10 : Slip := { publickey := [5], body := [9], is_valid := true }

/-- A degenerate transaction whose single slip is both an input and an
output, for the rollback refutation. -/
def txC10 : Transaction :=
  { core := { timestamp := 0, inputs := [slipC10], outputs := [slipC10],
              message := [], transaction_type := TransactionType.Normal,
              signature := zeroSignature },
    hash_for_signature := [] }

/-- C10 counterexample: when the input slip is also an output of the same
transaction, rollback removes its entry after inserting -1, so the input
looks up as absent, refuting the claim that every input of the transaction
looks up as -1 after rollback. -/
theorem c10_counterexample :
    ¬ (∀ i ∈ txC10.get_inputs,
        (Shashmap.new.unspend_transaction txC10).slip_block_id i = some (-1)) := by
  decide

/-- C10 amended: rollback unconditionally inserts -1 for every input that
is not also an output of the same transaction, on any prior map, including
one where the input was never registered and looked up as absent. -/
theorem c10_rollback_unconditional (m : Shashmap) (tx : Transaction) (i : Slip)
    (hi : i ∈ tx.get_inputs) (hno : i ∉ tx.get_outputs) :
    (m.unspend_transaction tx).slip_block_id i = some (-1)
    ∧ Shashmap.new.slip_block_id i = none := by
  constructor
  · simp [Shashmap.unspend_transaction, Shashmap.slip_block_id,
      foldl_hmRemove_lookup, foldl_hmInsert_lookup, hi, hno]
  · rfl

/-- A concrete valid slip that is an input and not an output of the
rollback witness transaction. -/
def slipC10w : Slip := { publickey := [6], body := [10], is_valid := true }

/-- A concrete transaction whose input slip is not among its outputs. -/
def txC10w : Transaction :=
  { core := { timestamp := 0, inputs := [slipC10w], outputs := [],
              message := [], transaction_type := TransactionType.Normal,
              signature := zeroSignature },
    hash_for_signature := [] }

/-- Witness for c10_rollback_unconditional: rolling back on the empty map
makes the never-registered input look up as -1. -/
theorem c10_rollback_unconditional_witness :
    (Shashmap.new.unspend_transaction txC10w).slip_block_id slipC10w = some (-1)
    ∧ Shashmap.new.slip_block_id slipC10w = none :=
  c10_rollback_unconditional Shashmap.new txC10w slipC10w (by decide) (by decide)

/-- A concrete crypto instance for the cached-hash independence witness. -/
def cryptoC8 : Crypto where
  hash l := l
  sign _ _ := zeroSignature
  verify _ _ _ := true

/-- A concrete transaction core shared by the two cached-hash witness
transactions. -/
def coreC8 : TransactionCore :=
  { timestamp := 3, inputs := [], outputs := [], message := [1],
    transaction_type := TransactionType.Normal, signature := zeroSignature }

/-- A concrete transaction with cached hash [1]. -/
def txC8a : Transaction := { core := coreC8, hash_for_signature := [1] }

/-- A concrete transaction with the same core but cached hash [2]. -/
def txC8b : Transaction := { core := coreC8, hash_for_signature := [2] }

/-- Witness for c8: two concrete transactions differing only in the cached
hash validate identically. -/
theorem c8_validate_ignores_cached_hash_witness :
    txC8a.validate cryptoC8 = txC8b.validate cryptoC8 :=
  c8_validate_ignores_cached_hash cryptoC8 txC8a txC8b rfl
